import Mathlib

/-!
Shallow embedding of the PDF acquisition pipeline of this repository
(src/download_pdfs.py, with the collaborator facts of
src/ai_articles_updater.py and src/app.py that the claims need), and
theorems settling the claims about it.

Python strings are modelled as Lean `String` (ASCII contents in all the
relevant literals); Python `bytes` chunks are modelled as `String`;
HTTP is modelled by environment records whose fields are the outcomes of
the network calls the code makes (`Except Unit _`; `Except.error ()`
stands for a raised `requests` exception, including `raise_for_status`
on a non-2xx response); the filesystem is a map from paths to optional
file contents.
-/

namespace ArticlesUpdate

/-! Section: Python string primitives -/

/-- Python `needle in hay` on lists of characters: `sep` occurs as a
contiguous sublist of `hay` (the empty needle is contained in every
string, as in Python). -/
def containsSub (hay sep : List Char) : Bool :=
  match hay with
  | [] => sep.isEmpty
  | _ :: t => sep.isPrefixOf hay || containsSub t sep

/-- Python `needle in hay` on strings. -/
def pyIn (needle hay : String) : Bool :=
  containsSub hay.toList needle.toList

/-- Python `s.lower()` (ASCII). -/
def pyLower (s : String) : String :=
  String.mk (s.toList.map Char.toLower)

/-- Python `s.split(c)[-1]` for a single-character separator: the suffix
after the last occurrence of `c` (the whole string when `c` is absent). -/
def afterLastChar (c : Char) (l : List Char) : List Char :=
  l.foldl (fun acc x => if x == c then [] else acc ++ [x]) []

/-- Python `s.split(sep)[-1]` for a multi-character separator: the suffix
after the last occurrence of `sep` (the whole string when absent). -/
def afterLastSub (sep : List Char) : List Char → List Char
  | [] => []
  | x :: t =>
    if containsSub t sep then afterLastSub sep t
    else if sep.isPrefixOf (x :: t) then (x :: t).drop sep.length
    else x :: t

/-- The double-quote or single-quote character, i.e. the set stripped by
Python `s.strip('"\'')` in `get_pdf_filename`. -/
def isQuote (c : Char) : Bool :=
  c == Char.ofNat 34 || c == Char.ofNat 39

/-- Python `s.strip('"\'')`: remove leading and trailing quote characters. -/
def stripQuotes (l : List Char) : List Char :=
  ((l.dropWhile isQuote).reverse.dropWhile isQuote).reverse

/-! Section: parsed HTML anchors.

An `<a>` element as BeautifulSoup presents it to this code: an optional
`href` attribute and the element's text (modelled as `""` when the
element has no usable text, which Python treats as falsy). -/

structure Anchor where
  href : Option String
  text : String
deriving DecidableEq

/-! Section: filesystem model -/

/-- A filesystem path `output_dir / filename` as built by `download_pdf`. -/
structure PyPath where
  dir : String
  file : String
deriving DecidableEq

/-- The filesystem: each path maps to the contents of the file there, or
`none` when no file exists (`Path.exists()` is `(fs p).isSome`,
`stat().st_size` is the length of the contents). -/
def FS : Type := PyPath → Option String

/-- Writing (mode `wb`: truncate and replace) a file's contents. -/
def fsWrite (fs : FS) (p : PyPath) (content : String) : FS :=
  fun q => if q = p then some content else fs q

/-! Section: create_session (src/download_pdfs.py lines 22-35).

The retry configuration attached to the module-level shared session. -/

structure RetryPolicy where
  total : Nat
  backoff_factor : Nat
  status_forcelist : List Nat
deriving DecidableEq

/-- The `Retry` strategy built by `create_session`. -/
def create_session : RetryPolicy :=
  { total := 5, backoff_factor := 1, status_forcelist := [429, 500, 502, 503, 504] }

/-! Section: HTTP call sites.

The five kinds of HTTP request the pipeline issues, and whether the
source routes each through the shared `session` (true) or through a bare
`requests.*` call that bypasses it (false), transcribed line by line. -/

inductive CallSite
  /-- Line 204 in main: `requests.get(url)` — discovery page fetch. -/
  | discoveryGet
  /-- Line 43 in get_pdf_url: `session.get(article_url)` — resolution page fetch. -/
  | resolvePageGet
  /-- Line 69 in get_pdf_url: `requests.head(full_url, allow_redirects=True)` — candidate PDF probe. -/
  | probeHead
  /-- Line 111 in download_pdf: `session.head(pdf_url, allow_redirects=True)` — pre-download HEAD. -/
  | preDownloadHead
  /-- Line 131 in download_pdf: `session.get(pdf_url, stream=True)` — streaming download. -/
  | streamingGet
deriving DecidableEq

/-- Whether each call site goes through the shared session. -/
def viaSession : CallSite → Bool
  | CallSite.discoveryGet => false
  | CallSite.resolvePageGet => true
  | CallSite.probeHead => false
  | CallSite.preDownloadHead => true
  | CallSite.streamingGet => true

/-! Section: get_pdf_url (src/download_pdfs.py lines 37-84) -/

/-- Environment for `get_pdf_url`: the outcome of fetching-and-parsing a
page (the anchors of its HTML), the content-type reported by a HEAD
probe of a URL (`""` when the header is missing), and `urllib`'s
`urljoin`. `Except.error ()` is a raised exception. -/
structure ResolveEnv where
  pageGet : String → Except Unit (List Anchor)
  probeHead : String → Except Unit String
  urljoin : String → String → String

/-- Python `find_all('a', href=lambda x: x and needle in x.lower())`. -/
def hrefFilter (needle : String) (anchors : List Anchor) : List Anchor :=
  anchors.filter (fun a =>
    match a.href with
    | some h => !h.isEmpty && pyIn needle (pyLower h)
    | none => false)

/-- The text terms of the fourth pattern. -/
def textTerms : List String := ["report", "download", "pdf"]

/-- Python `string=lambda x: x and any(term in x.lower() for term in [...])`. -/
def textMatches (text : String) : Bool :=
  !text.isEmpty && textTerms.any (fun term => pyIn term (pyLower text))

/-- Python `find_all('a', string=...)` for the fourth pattern. -/
def textFilter (anchors : List Anchor) : List Anchor :=
  anchors.filter (fun a => textMatches a.text)

/-- The four `pdf_patterns` applied to the parsed page, in source order. -/
def patternLists (anchors : List Anchor) : List (List Anchor) :=
  [ hrefFilter "pdf" anchors
  , hrefFilter "download" anchors
  , hrefFilter "report" anchors
  , textFilter anchors ]

/-- The inner `for link in links` loop of `get_pdf_url`: skip anchors
without a truthy href, resolve to an absolute URL, HEAD-probe it; a probe
exception or a non-PDF content-type moves on to the next link; a
content-type containing "pdf" returns the absolute URL immediately. -/
def tryLinks (env : ResolveEnv) (articleUrl : String) : List Anchor → Option String
  | [] => none
  | a :: rest =>
    match a.href with
    | none => tryLinks env articleUrl rest
    | some h =>
      if h.isEmpty then tryLinks env articleUrl rest
      else
        let full := env.urljoin articleUrl h
        match env.probeHead full with
        | Except.error _ => tryLinks env articleUrl rest
        | Except.ok ct =>
          if pyIn "pdf" (pyLower ct) then some full
          else tryLinks env articleUrl rest

/-- The outer `for pattern in pdf_patterns` loop: each pattern's matches
are scanned in turn; when a pattern's scan returns nothing the loop
continues with the next pattern. -/
def tryPatterns (env : ResolveEnv) (articleUrl : String) : List (List Anchor) → Option String
  | [] => none
  | links :: rest =>
    if links.isEmpty then tryPatterns env articleUrl rest
    else
      match tryLinks env articleUrl links with
      | some u => some u
      | none => tryPatterns env articleUrl rest

/-- Function `get_pdf_url`: fetch the article page (an exception, including a
non-2xx status, yields `none`), then scan the four patterns. -/
def get_pdf_url (env : ResolveEnv) (articleUrl : String) : Option String :=
  match env.pageGet articleUrl with
  | Except.error _ => none
  | Except.ok anchors => tryPatterns env articleUrl (patternLists anchors)

/-! Section: get_pdf_filename (src/download_pdfs.py lines 86-102) -/

/-- The headers of a HEAD response as `download_pdf` reads them:
`Content-Disposition` if present, and `content-length` parsed as a
number if present (`headers.get('content-length', 0)` defaults to 0). -/
structure Headers where
  contentDisposition : Option String
  contentLength : Option Nat
deriving DecidableEq

/-- Function `get_pdf_filename`: last URL path segment, overridden by the
`Content-Disposition` `filename=` value (quotes stripped) when that
header contains `filename=`; then drop everything from the first `?`;
then append `.pdf` unless the lowercased name already ends in `.pdf`. -/
def get_pdf_filename (pdf_url : String) (headers : Headers) : String :=
  let fromUrl := String.mk (afterLastChar '/' pdf_url.toList)
  let base :=
    match headers.contentDisposition with
    | some cd =>
      if pyIn "filename=" cd then
        String.mk (stripQuotes (afterLastSub ("filename=".toList) cd.toList))
      else fromUrl
    | none => fromUrl
  let noQuery := String.mk (base.toList.takeWhile (fun c => c != '?'))
  if (".pdf".toList).isSuffixOf (pyLower noQuery).toList then noQuery
  else noQuery ++ ".pdf"

/-! Section: download_pdf (src/download_pdfs.py lines 104-154) -/

/-- The streaming GET's observable behaviour: the `content-length` header
(used only for the progress-bar total), the body chunks
`iter_content` yields, and — when `failAfter = some k` — an exception
raised after the first `k` chunks were yielded and written. -/
structure StreamResp where
  contentLength : Option Nat
  chunks : List String
  failAfter : Option Nat

/-- Environment for `download_pdf`: the HEAD request's outcome and the
streaming GET's outcome (`Except.error ()` covers a connection error or
a non-2xx status surfaced by `raise_for_status`). -/
structure DlEnv where
  headReq : String → Except Unit Headers
  getReq : String → Except Unit StreamResp

/-- The chunks actually written to the file: all of them on a clean
stream, only the first `k` when the stream raises after `k` chunks. -/
def writtenChunks (stream : StreamResp) : List String :=
  match stream.failAfter with
  | some k => stream.chunks.take k
  | none => stream.chunks

/-- The skip decision of `download_pdf` (lines 119-128): a file exists at
the target path and its size equals `int(headers.get('content-length', 0))`. -/
def sizeMatches (fs : FS) (path : PyPath) (headers : Headers) : Bool :=
  match fs path with
  | some content => content.length == headers.contentLength.getD 0
  | none => false

/-- Function `download_pdf`: HEAD for headers (exception ⇒ `none`); derive the
filename and target path; if a file exists there whose size equals
`int(headers.get('content-length', 0))`, skip and return the existing
path; otherwise stream the body into the file (opened `wb`, so the old
contents are truncated first); a streaming exception, before or during
the body, yields `none`. Returns the result and the updated filesystem. -/
def download_pdf (env : DlEnv) (fs : FS) (pdf_url : String) (output_dir : String) :
    Option PyPath × FS :=
  match env.headReq pdf_url with
  | Except.error _ => (none, fs)
  | Except.ok headers =>
    let filename := get_pdf_filename pdf_url headers
    let path : PyPath := ⟨output_dir, filename⟩
    if sizeMatches fs path headers then (some path, fs)
    else
      match env.getReq pdf_url with
      | Except.error _ => (none, fs)
      | Except.ok stream =>
        let fs2 := fsWrite fs path (String.join (writtenChunks stream))
        match stream.failAfter with
        | some _ => (none, fs2)
        | none => (some path, fs2)

/-! Section: process_article_links (src/download_pdfs.py lines 156-182) -/

/-- The hardcoded output directory `Path('pdfs')` of `process_article_links`. -/
def processOutputDir : String := "pdfs"

/-- Function `process_article_links`: for each link in order, resolve its PDF URL
(`none` ⇒ skip), download it (`none` ⇒ skip), collect the returned paths. -/
def process_article_links (renv : ResolveEnv) (denv : DlEnv) (fs : FS) :
    List String → List PyPath × FS
  | [] => ([], fs)
  | link :: rest =>
    match get_pdf_url renv link with
    | none => process_article_links renv denv fs rest
    | some pdf_url =>
      match download_pdf denv fs pdf_url processOutputDir with
      | (some p, fs2) =>
        let tail := process_article_links renv denv fs2 rest
        (p :: tail.1, tail.2)
      | (none, fs2) => process_article_links renv denv fs2 rest

/-- The per-link pipeline of `process_article_links`' loop body: resolve,
then download into `pdfs`; either failure yields `none` for this link. -/
def linkResult (renv : ResolveEnv) (denv : DlEnv) (fs : FS) (link : String) :
    Option PyPath × FS :=
  match get_pdf_url renv link with
  | none => (none, fs)
  | some pdf_url => download_pdf denv fs pdf_url processOutputDir

/-- Generic best-effort collection: thread the state through every item,
keep the successes in order, drop the failures without a slot. -/
def statefulFilterMap {σ α β : Type} (f : σ → α → Option β × σ) :
    σ → List α → List β × σ
  | s, [] => ([], s)
  | s, x :: xs =>
    let r := f s x
    let rest := statefulFilterMap f r.2 xs
    (match r.1 with
     | some b => b :: rest.1
     | none => rest.1, rest.2)

/-! Section: link discovery in main (src/download_pdfs.py lines 200-223) -/

/-- Environment for the discovery loop in `main`: fetching-and-parsing a
seed page, and `urljoin`. -/
structure DiscEnv where
  pageGet : String → Except Unit (List Anchor)
  urljoin : String → String → String

/-- The keyword list of `main`'s relevance check. -/
def mainKeywords : List String := ["poll", "report", "research", "study", "findings"]

/-- Relevance check of main for one anchor:
`any(term in href.lower() or (link.text and term in link.text.lower()) for term in [...])`.
Note it inspects the raw `href`, not the joined absolute URL. -/
def mainHit (h text : String) : Bool :=
  mainKeywords.any (fun term =>
    pyIn term (pyLower h) || (!text.isEmpty && pyIn term (pyLower text)))

/-- The candidates one seed page contributes: anchors with a truthy href
that pass the relevance check, joined to absolute URLs, kept only when
the absolute URL contains `base_url`; a fetch exception contributes
nothing. -/
def discoverPage (env : DiscEnv) (base_url url : String) : List String :=
  match env.pageGet url with
  | Except.error _ => []
  | Except.ok anchors =>
    anchors.filterMap (fun a =>
      match a.href with
      | none => none
      | some h =>
        if h.isEmpty then none
        else if mainHit h a.text then
          let full := env.urljoin url h
          if pyIn base_url full then some full else none
        else none)

/-- The `all_links` set built by `main`: the union of every seed page's
candidates, plus the original seed links themselves. -/
def mainDiscover (env : DiscEnv) (base_url : String) (article_links : List String) :
    Finset String :=
  (article_links.foldl (fun acc url => acc ∪ (discoverPage env base_url url).toFinset) ∅)
    ∪ article_links.toFinset

/-! Section: collaborators (src/ai_articles_updater.py, src/app.py) -/

/-- Directory created by `update_articles` (src/ai_articles_updater.py line 91): the directory
it creates and writes `metadata.json` into. -/
def updaterPdfDir : String := "pdfDatabase"

/-- Path where `update_articles` (src/ai_articles_updater.py line 114) writes: where the
metadata record is written. -/
def updaterMetadataPath : PyPath := ⟨updaterPdfDir, "metadata.json"⟩

/-- Directory from which `app.py` (line 95) loads and chunks PDFs. -/
def appPdfDir : String := "pdfDatabase/"

/-! Section: claim-side definitions, for refinement comparison.

These two follow the claims' words, not the source; they exist only to be
compared with the source-derived `get_pdf_url` and `mainDiscover`. -/

/-- The resolution rule as claim C2 words it: candidates are taken only
from the first strategy that yields at least one match, and no other
strategy is scanned. -/
def claimResolve (env : ResolveEnv) (articleUrl : String) : Option String :=
  match env.pageGet articleUrl with
  | Except.error _ => none
  | Except.ok anchors =>
    match (patternLists anchors).find? (fun l => !l.isEmpty) with
    | none => none
    | some links => tryLinks env articleUrl links

/-- The candidate rule as claim C8 words it: an anchor is a candidate iff
its resolved absolute URL or its visible text contains some keyword
(case-insensitive substring), filtered to absolute URLs containing the
domain filter. -/
def claimCandidates (env : DiscEnv) (base_url url : String) : List String :=
  match env.pageGet url with
  | Except.error _ => []
  | Except.ok anchors =>
    anchors.filterMap (fun a =>
      match a.href with
      | none => none
      | some h =>
        let full := env.urljoin url h
        if (mainKeywords.any (fun term =>
              pyIn term (pyLower full) || pyIn term (pyLower a.text)))
            && pyIn base_url full
        then some full else none)

/-- The discovery result as claim C8 words it: the union over seed pages
of the claim-side candidates, plus the seeds. -/
def claimDiscover (env : DiscEnv) (base_url : String) (article_links : List String) :
    Finset String :=
  (article_links.foldl (fun acc url => acc ∪ (claimCandidates env base_url url).toFinset) ∅)
    ∪ article_links.toFinset

/-! Section: concrete environments used by counterexamples and witnesses -/

/-- The empty filesystem. -/
def fsEmpty : FS := fun _ => none

/-- A page whose first-strategy match (`file.pdf`) does not verify as a
PDF while its second-strategy match (`files/download`) does. -/
def fallEnv : ResolveEnv :=
  { pageGet := fun u =>
      if u = "https://s.com/page" then
        Except.ok [⟨some "file.pdf", ""⟩, ⟨some "files/download", ""⟩]
      else Except.error ()
  , probeHead := fun u =>
      if u = "https://s.com/files/download" then Except.ok "application/pdf"
      else Except.ok "text/html"
  , urljoin := fun _ h => "https://s.com/" ++ h }

/-- A resolution environment whose page fetch always raises. -/
def pageErrEnv : ResolveEnv :=
  { pageGet := fun _ => Except.error ()
  , probeHead := fun _ => Except.ok "application/pdf"
  , urljoin := fun _ h => h }

/-- A resolution environment whose probes always raise. -/
def probeErrEnv : ResolveEnv :=
  { pageGet := fun _ => Except.ok [⟨some "a.pdf", ""⟩]
  , probeHead := fun _ => Except.error ()
  , urljoin := fun _ h => h }

/-- A download environment whose HEAD request always raises. -/
def headErrDEnv : DlEnv :=
  { headReq := fun _ => Except.error ()
  , getReq := fun _ => Except.ok ⟨some 2, ["ab"], none⟩ }

/-- A download environment whose HEAD succeeds (content-length 2) but
whose streaming GET always raises. -/
def getErrDEnv : DlEnv :=
  { headReq := fun _ => Except.ok ⟨none, some 2⟩
  , getReq := fun _ => Except.error () }

/-- A download environment for a clean 2-byte download `"ab"`. -/
def okDEnv : DlEnv :=
  { headReq := fun _ => Except.ok ⟨none, some 2⟩
  , getReq := fun _ => Except.ok ⟨some 2, ["ab"], none⟩ }

/-- A download environment whose stream yields one of two chunks and then
raises mid-transfer. -/
def midFailDEnv : DlEnv :=
  { headReq := fun _ => Except.ok ⟨none, some 4⟩
  , getReq := fun _ => Except.ok ⟨some 4, ["ab", "cd"], some 1⟩ }

/-- A filesystem holding a 2-byte file `ab` at `pdfs/a.pdf`. -/
def fsA : FS := fun p => if p = ⟨"pdfs", "a.pdf"⟩ then some "ab" else none

/-- A filesystem holding an empty file at `pdfs/a.pdf`. -/
def fsA0 : FS := fun p => if p = ⟨"pdfs", "a.pdf"⟩ then some "" else none

/-- A download environment reporting no content-length header whose
streaming GET always raises. -/
def noLenDEnv : DlEnv :=
  { headReq := fun _ => Except.ok ⟨none, none⟩
  , getReq := fun _ => Except.error () }

/-- A resolution environment with a single verifying PDF anchor. -/
def okREnv : ResolveEnv :=
  { pageGet := fun _ => Except.ok [⟨some "a.pdf", ""⟩]
  , probeHead := fun _ => Except.ok "application/pdf"
  , urljoin := fun _ h => "https://s.com/" ++ h }

/-- A seed page with one anchor whose raw href (`a.html`) and text (`x`)
match no keyword, while its resolved absolute URL
(`https://s.com/research/a.html`) contains the keyword `research`. -/
def discEnv : DiscEnv :=
  { pageGet := fun u =>
      if u = "https://s.com/research/briefs" then Except.ok [⟨some "a.html", "x"⟩]
      else Except.error ()
  , urljoin := fun _ h => "https://s.com/research/" ++ h }

end ArticlesUpdate

namespace ArticlesUpdate

/-! Section: helper lemmas -/

/-- Scanning an appended candidate list scans the first part and, when it
produces nothing, the second. -/
theorem tryLinks_append (env : ResolveEnv) (url : String) (xs ys : List Anchor) :
    tryLinks env url (xs ++ ys)
      = match tryLinks env url xs with
        | some u => some u
        | none => tryLinks env url ys := by
  induction xs with
  | nil => simp [tryLinks]
  | cons a rest ih =>
    rw [List.cons_append]
    cases ha : a.href with
    | none => simp [tryLinks, ha, ih]
    | some h =>
      by_cases he : h.isEmpty
      · simp [tryLinks, ha, he, ih]
      · cases hp : env.probeHead (env.urljoin url h) with
        | error e => simp [tryLinks, ha, he, hp, ih]
        | ok ct =>
          by_cases hc : pyIn "pdf" (pyLower ct) = true
          · simp [tryLinks, ha, he, hp, hc]
          · simp [tryLinks, ha, he, hp, hc, ih]

/-- The pattern loop of `get_pdf_url` is the scan of the concatenation of
all patterns' matches, in pattern order. -/
theorem tryPatterns_flatten (env : ResolveEnv) (url : String) (ls : List (List Anchor)) :
    tryPatterns env url ls = tryLinks env url ls.flatten := by
  induction ls with
  | nil => rfl
  | cons links rest ih =>
    rw [List.flatten_cons, tryLinks_append]
    by_cases he : links.isEmpty
    · have hnil : links = [] := by
        cases links with
        | nil => rfl
        | cons x xs => simp at he
      subst hnil
      simpa [tryPatterns, tryLinks] using ih
    · rw [tryPatterns, if_neg he, ih]

/-- Every path `download_pdf` returns lies in the requested output
directory. -/
theorem download_pdf_dir (denv : DlEnv) (fs : FS) (url dir : String) (p : PyPath)
    (h : (download_pdf denv fs url dir).1 = some p) : p.dir = dir := by
  unfold download_pdf at h
  rcases hh : denv.headReq url with he | hs
  · rw [hh] at h
    simp at h
  · rw [hh] at h
    dsimp only at h
    by_cases hskip : sizeMatches fs ⟨dir, get_pdf_filename url hs⟩ hs
    · rw [if_pos hskip] at h
      simp at h
      subst h
      rfl
    · rw [if_neg hskip] at h
      rcases hg : denv.getReq url with he | stream
      · rw [hg] at h
        simp at h
      · rw [hg] at h
        dsimp only at h
        rcases hfa : stream.failAfter with _ | k
        · rw [hfa] at h
          simp at h
          subst h
          rfl
        · rw [hfa] at h
          simp at h

/-- Every path `process_article_links` collects lies in the hardcoded
output directory. -/
theorem process_article_links_dir (renv : ResolveEnv) (denv : DlEnv) (fs : FS)
    (links : List String) (p : PyPath)
    (hp : p ∈ (process_article_links renv denv fs links).1) : p.dir = processOutputDir := by
  induction links generalizing fs with
  | nil => simp [process_article_links] at hp
  | cons link rest ih =>
    rw [process_article_links] at hp
    rcases hg : get_pdf_url renv link with _ | u
    · rw [hg] at hp
      exact ih fs hp
    · rw [hg] at hp
      dsimp only at hp
      rcases hd : download_pdf denv fs u processOutputDir with ⟨r1, fs2⟩
      rw [hd] at hp
      cases r1 with
      | none => exact ih fs2 hp
      | some q =>
        rcases List.mem_cons.mp hp with hq | htail
        · subst hq
          have h1 : (download_pdf denv fs u processOutputDir).1 = some p := by rw [hd]
          exact download_pdf_dir denv fs u processOutputDir p h1
        · exact ih fs2 htail

/-- Containment of a single character is list membership. -/
theorem containsSub_singleton (l : List Char) (c : Char) :
    containsSub l [c] = decide (c ∈ l) := by
  induction l with
  | nil => simp [containsSub]
  | cons x t ih =>
    by_cases hcx : c = x
    · subst hcx
      simp [containsSub, List.isPrefixOf]
    · simp [containsSub, List.isPrefixOf, ih, hcx, Ne.symm hcx]

/-- A list is a Boolean prefix of itself followed by anything. -/
theorem isPrefixOf_append_self (xs ys : List Char) : xs.isPrefixOf (xs ++ ys) = true := by
  induction xs with
  | nil => simp [List.isPrefixOf]
  | cons a t ih => simp [List.isPrefixOf, ih]

/-- A list is a Boolean suffix of anything followed by itself. -/
theorem isSuffixOf_append_self (xs ys : List Char) : ys.isSuffixOf (xs ++ ys) = true := by
  simp [List.isSuffixOf, List.reverse_append, isPrefixOf_append_self]

/-- Taking characters while they differ from the question mark yields a
list without it. -/
theorem q_notMem_takeWhile (l : List Char) :
    ('?' : Char) ∉ l.takeWhile (fun c => c != '?') := by
  induction l with
  | nil => simp
  | cons a t ih =>
    rw [List.takeWhile_cons]
    by_cases h : a = '?'
    · subst h
      simp
    · simp [h, ih]
      exact fun hh => h hh.symm

/-- Lowercasing distributes over string append, at the character-list level. -/
theorem pyLower_append (a b : String) :
    (pyLower (a ++ b)).toList = (pyLower a).toList ++ (pyLower b).toList := by
  simp [pyLower, String.toList, String.data_append]

/-- Membership in a left fold of unions over a list. -/
theorem mem_foldl_union (f : String → Finset String) (links : List String)
    (acc : Finset String) (u : String) :
    u ∈ links.foldl (fun a l => a ∪ f l) acc ↔ u ∈ acc ∨ ∃ l ∈ links, u ∈ f l := by
  induction links generalizing acc with
  | nil => simp
  | cons l ls ih => simp [List.foldl_cons, ih, or_assoc]

end ArticlesUpdate

namespace ArticlesUpdate

/-! Section: the claims -/

/-- Claim C1: when the pre-download HEAD request succeeds and reports a
content-length, and a file already exists at the derived target path,
`download_pdf` returns the existing path unchanged if the on-disk size
equals that content-length — for every possible streaming-GET behaviour,
so no body bytes are transferred — and re-downloads and overwrites the
file when the sizes differ. -/
theorem C1_size_skip_or_redownload (hd : String → Except Unit Headers)
    (gt : String → Except Unit StreamResp) (fs : FS) (pdf_url output_dir : String)
    (hs : Headers) (n : Nat) (c : String)
    (hhead : hd pdf_url = Except.ok hs)
    (hlen : hs.contentLength = some n)
    (hfile : fs ⟨output_dir, get_pdf_filename pdf_url hs⟩ = some c) :
    (c.length = n →
      download_pdf ⟨hd, gt⟩ fs pdf_url output_dir
        = (some ⟨output_dir, get_pdf_filename pdf_url hs⟩, fs))
    ∧ (∀ stream : StreamResp, c.length ≠ n → gt pdf_url = Except.ok stream →
        stream.failAfter = none →
        download_pdf ⟨hd, gt⟩ fs pdf_url output_dir
          = (some ⟨output_dir, get_pdf_filename pdf_url hs⟩,
             fsWrite fs ⟨output_dir, get_pdf_filename pdf_url hs⟩
               (String.join stream.chunks))) := by
  constructor
  · intro heq
    simp [download_pdf, hhead, sizeMatches, hfile, hlen, heq]
  · intro stream hne hget hfa
    simp [download_pdf, hhead, sizeMatches, hfile, hlen, hne, hget, writtenChunks, hfa]

/-- Witness for C1: with a 2-byte file `ab` already at `pdfs/a.pdf` and a
HEAD reporting content-length 2, the existing path is returned; with an
empty file there instead, the 2-byte body is re-downloaded over it. -/
theorem C1_size_skip_or_redownload_witness :
    (download_pdf okDEnv fsA "https://s.com/a.pdf" "pdfs").1 = some ⟨"pdfs", "a.pdf"⟩
    ∧ (download_pdf okDEnv fsA0 "https://s.com/a.pdf" "pdfs").2 ⟨"pdfs", "a.pdf"⟩
        = some "ab" := by
  constructor
  · have h := (C1_size_skip_or_redownload okDEnv.headReq okDEnv.getReq fsA
      "https://s.com/a.pdf" "pdfs" ⟨none, some 2⟩ 2 "ab" rfl rfl (by decide)).1 rfl
    rw [show download_pdf okDEnv fsA "https://s.com/a.pdf" "pdfs"
        = download_pdf ⟨okDEnv.headReq, okDEnv.getReq⟩ fsA "https://s.com/a.pdf" "pdfs"
        from rfl, h]
    decide
  · have h := (C1_size_skip_or_redownload okDEnv.headReq okDEnv.getReq fsA0
      "https://s.com/a.pdf" "pdfs" ⟨none, some 2⟩ 2 "" rfl rfl (by decide)).2
      ⟨some 2, ["ab"], none⟩ (by decide) rfl rfl
    rw [show download_pdf okDEnv fsA0 "https://s.com/a.pdf" "pdfs"
        = download_pdf ⟨okDEnv.headReq, okDEnv.getReq⟩ fsA0 "https://s.com/a.pdf" "pdfs"
        from rfl, h]
    decide

/-- Counterexample to C2 as stated: on a page whose strategy-1 match
(`file.pdf`) fails its PDF probe while the strategy-2 match
(`files/download`) verifies, the code returns the strategy-2 link,
whereas taking candidates only from the first non-empty strategy (the
claim's rule, `claimResolve`) returns none. -/
theorem C2_counterexample :
    get_pdf_url fallEnv "https://s.com/page" = some "https://s.com/files/download"
    ∧ claimResolve fallEnv "https://s.com/page" = none := by
  exact ⟨by decide, by decide⟩

/-- Claim C2 (amended): the four strategies are applied in priority
order, but with fall-through — when no candidate of an earlier strategy
verifies, the later strategies are scanned too; the returned link is the
first verified candidate of the strategy-ordered, document-ordered
candidate sequence; in particular whenever some strategy-1 (href contains
"pdf") candidate verifies first among strategy-1 candidates, it is the
result. -/
theorem C2_strategy_order (env : ResolveEnv) (articleUrl : String)
    (anchors : List Anchor) (hpage : env.pageGet articleUrl = Except.ok anchors) :
    get_pdf_url env articleUrl = tryLinks env articleUrl (patternLists anchors).flatten
    ∧ (∀ u, tryLinks env articleUrl (hrefFilter "pdf" anchors) = some u →
        get_pdf_url env articleUrl = some u) := by
  have hmain : get_pdf_url env articleUrl
      = tryLinks env articleUrl (patternLists anchors).flatten := by
    unfold get_pdf_url
    rw [hpage]
    exact tryPatterns_flatten env articleUrl (patternLists anchors)
  refine ⟨hmain, fun u hu => ?_⟩
  rw [hmain]
  have hsplit : (patternLists anchors).flatten
      = hrefFilter "pdf" anchors
        ++ (hrefFilter "download" anchors
            ++ (hrefFilter "report" anchors ++ (textFilter anchors ++ []))) := rfl
  rw [hsplit, tryLinks_append, hu]

/-- Witness for C2 (amended), at the two-anchor page of `fallEnv`. -/
theorem C2_strategy_order_witness :
    get_pdf_url fallEnv "https://s.com/page"
      = tryLinks fallEnv "https://s.com/page"
          (patternLists [⟨some "file.pdf", ""⟩, ⟨some "files/download", ""⟩]).flatten :=
  (C2_strategy_order fallEnv "https://s.com/page" _ rfl).1

/-- Claim C3: `process_article_links` is exactly the stateful best-effort
collection of the per-link pipeline: links are processed in input order,
the result lists precisely the paths of the links whose resolution and
download both succeeded, in that order, failed links leave no slot, and
no failure aborts the batch (the equality holds for every environment,
including ones where every network call fails). -/
theorem C3_best_effort_batch (renv : ResolveEnv) (denv : DlEnv) (fs : FS)
    (links : List String) :
    process_article_links renv denv fs links
      = statefulFilterMap (linkResult renv denv) fs links := by
  induction links generalizing fs with
  | nil => rfl
  | cons link rest ih =>
    simp only [process_article_links, statefulFilterMap, linkResult]
    cases hg : get_pdf_url renv link with
    | none => simpa using ih fs
    | some u =>
      dsimp only
      cases hd : download_pdf denv fs u processOutputDir with
      | mk r1 fs2 => cases r1 <;> simp [ih]

/-- Claim C4: the derived filename is the `Content-Disposition`
`filename=` value when present, else the last URL path segment; the two
concrete cases of the spec hold; every derived name ends in `.pdf`
case-insensitively; and no derived name retains a query string. -/
theorem C4_filename_derivation :
    (∀ cl : Option Nat,
        get_pdf_filename "https://x.org/file.php?token=abc" ⟨none, cl⟩ = "file.php.pdf")
    ∧ (∀ cl : Option Nat,
        get_pdf_filename "https://x.org/file.php?token=abc"
          ⟨some "filename=\"report.pdf\"", cl⟩ = "report.pdf")
    ∧ (∀ (pdf_url : String) (hs : Headers),
        (".pdf".toList).isSuffixOf (pyLower (get_pdf_filename pdf_url hs)).toList = true)
    ∧ (∀ (pdf_url : String) (hs : Headers),
        pyIn "?" (get_pdf_filename pdf_url hs) = false) := by
  refine ⟨fun cl => rfl, fun cl => rfl, ?_, ?_⟩
  · intro pdf_url hs
    simp only [get_pdf_filename]
    split
    next hcond => exact hcond
    next hcond =>
      rw [pyLower_append]
      have hpdf : (pyLower ".pdf").toList = ".pdf".toList := by decide
      rw [hpdf]
      exact isSuffixOf_append_self _ _
  · intro pdf_url hs
    simp only [get_pdf_filename]
    split
    next hcond =>
      simp only [pyIn]
      have hq : ("?".toList : List Char) = ['?'] := by decide
      rw [hq, containsSub_singleton]
      simp only [String.toList]
      exact decide_eq_false (q_notMem_takeWhile _)
    next hcond =>
      simp only [pyIn]
      have hq : ("?".toList : List Char) = ['?'] := by decide
      rw [hq, containsSub_singleton]
      simp only [String.toList, String.data_append]
      refine decide_eq_false ?_
      intro hmem
      rcases List.mem_append.mp hmem with hl | hr
      · exact q_notMem_takeWhile _ hl
      · exact absurd hr (by decide)

/-- Claim C5: failures are absorbed at the smallest scope and never
raised to the caller — a page-fetch exception makes `get_pdf_url` return
none; a candidate-probe exception makes the scan continue with the next
candidate; a HEAD exception makes `download_pdf` return none with the
filesystem untouched; a streaming-GET exception (when no skip applies)
likewise. -/
theorem C5_failures_absorbed :
    (∀ (env : ResolveEnv) (url : String),
        env.pageGet url = Except.error () → get_pdf_url env url = none)
    ∧ (∀ (env : ResolveEnv) (url : String) (a : Anchor) (rest : List Anchor) (h : String),
        a.href = some h → h.isEmpty = false →
        env.probeHead (env.urljoin url h) = Except.error () →
        tryLinks env url (a :: rest) = tryLinks env url rest)
    ∧ (∀ (denv : DlEnv) (fs : FS) (url dir : String),
        denv.headReq url = Except.error () →
        download_pdf denv fs url dir = (none, fs))
    ∧ (∀ (denv : DlEnv) (fs : FS) (url dir : String) (hs : Headers),
        denv.headReq url = Except.ok hs →
        sizeMatches fs ⟨dir, get_pdf_filename url hs⟩ hs = false →
        denv.getReq url = Except.error () →
        download_pdf denv fs url dir = (none, fs)) := by
  refine ⟨?_, ?_, ?_, ?_⟩
  · intro env url h
    simp [get_pdf_url, h]
  · intro env url a rest h hah hne hp
    simp [tryLinks, hah, hne, hp]
  · intro denv fs url dir h
    simp [download_pdf, h]
  · intro denv fs url dir hs hh hskip hget
    simp [download_pdf, hh, hskip, hget]

/-- Witness for C5, at concrete failing environments for each of the four
absorption sites. -/
theorem C5_failures_absorbed_witness :
    get_pdf_url pageErrEnv "https://s.com/page" = none
    ∧ tryLinks probeErrEnv "https://s.com/page" [⟨some "a.pdf", ""⟩]
        = tryLinks probeErrEnv "https://s.com/page" []
    ∧ download_pdf headErrDEnv fsEmpty "https://s.com/a.pdf" "pdfs" = (none, fsEmpty)
    ∧ download_pdf getErrDEnv fsEmpty "https://s.com/a.pdf" "pdfs" = (none, fsEmpty) :=
  ⟨C5_failures_absorbed.1 pageErrEnv _ rfl,
   C5_failures_absorbed.2.1 probeErrEnv _ _ [] _ rfl rfl rfl,
   C5_failures_absorbed.2.2.1 headErrDEnv fsEmpty _ _ rfl,
   C5_failures_absorbed.2.2.2 getErrDEnv fsEmpty _ _ _ rfl (by decide) rfl⟩

/-- Counterexample to C6 as stated: with no content-length header and an
existing empty file at the target path, `download_pdf` does not
re-download — it skips and returns the existing path (the streaming GET
of this environment raises, so a re-download would have returned none),
leaving the empty file in place. -/
theorem C6_counterexample :
    (download_pdf noLenDEnv fsA0 "https://s.com/a.pdf" "pdfs").1 = some ⟨"pdfs", "a.pdf"⟩
    ∧ (download_pdf noLenDEnv fsA0 "https://s.com/a.pdf" "pdfs").2 ⟨"pdfs", "a.pdf"⟩
        = some "" := by
  exact ⟨by decide, by decide⟩

/-- Claim C6 (amended): when the HEAD response carries no content-length,
the missing header is read as 0, so an existing file is treated as
complete and skipped exactly when its size is 0 bytes; any nonempty
existing file is re-downloaded. -/
theorem C6_missing_length (denv : DlEnv) (fs : FS) (url dir : String) (hs : Headers)
    (hhead : denv.headReq url = Except.ok hs)
    (hcl : hs.contentLength = none) :
    (sizeMatches fs ⟨dir, get_pdf_filename url hs⟩ hs = true
       ↔ ∃ c, fs ⟨dir, get_pdf_filename url hs⟩ = some c ∧ c.length = 0)
    ∧ (∀ c, fs ⟨dir, get_pdf_filename url hs⟩ = some c → c.length ≠ 0 →
        denv.getReq url = Except.error () →
        download_pdf denv fs url dir = (none, fs))
    ∧ (∀ c, fs ⟨dir, get_pdf_filename url hs⟩ = some c → c.length = 0 →
        download_pdf denv fs url dir = (some ⟨dir, get_pdf_filename url hs⟩, fs)) := by
  refine ⟨?_, ?_, ?_⟩
  · rw [sizeMatches]
    cases hf : fs ⟨dir, get_pdf_filename url hs⟩ with
    | none => simp
    | some c => simp [hcl]
  · intro c hf hne hget
    simp [download_pdf, hhead, sizeMatches, hf, hcl, hne, hget]
  · intro c hf hz
    simp [download_pdf, hhead, sizeMatches, hf, hcl, hz]

/-- Witness for C6 (amended): a nonempty existing file with no
content-length reported is re-downloaded (and the failing GET of this
environment makes the call return none). -/
theorem C6_missing_length_witness :
    download_pdf noLenDEnv fsA "https://s.com/a.pdf" "pdfs" = (none, fsA) :=
  (C6_missing_length noLenDEnv fsA "https://s.com/a.pdf" "pdfs" ⟨none, none⟩
    rfl rfl).2.1 "ab" (by decide) (by decide) rfl

/-- Counterexample to C7 as stated: the candidate PDF probe (line 69,
`requests.head`) and the discovery page fetch (line 204, `requests.get`)
bypass the shared session. -/
theorem C7_counterexample :
    viaSession CallSite.probeHead = false ∧ viaSession CallSite.discoveryGet = false := by
  decide

/-- Claim C7 (amended): the shared session carries the retry policy of 5
retries with backoff factor 1 on statuses 429, 500, 502, 503, 504, and is
used by the resolution page fetch, the pre-download HEAD and the
streaming download — but the candidate PDF probes and the discovery page
fetches are bare `requests` calls outside it. -/
theorem C7_session_routing :
    create_session.total = 5
    ∧ create_session.backoff_factor = 1
    ∧ create_session.status_forcelist = [429, 500, 502, 503, 504]
    ∧ viaSession CallSite.resolvePageGet = true
    ∧ viaSession CallSite.preDownloadHead = true
    ∧ viaSession CallSite.streamingGet = true
    ∧ viaSession CallSite.discoveryGet = false
    ∧ viaSession CallSite.probeHead = false := by
  decide

/-- Counterexample to C8 as stated: an anchor with href `a.html` and text
`x` resolves to `https://s.com/research/a.html`, whose absolute URL
contains the keyword "research" — under the claim's rule
(`claimDiscover`) it is a candidate, but the code matches keywords
against the raw href and text only, so `mainDiscover` omits it. -/
theorem C8_counterexample :
    "https://s.com/research/a.html"
        ∈ claimDiscover discEnv "https://s.com" ["https://s.com/research/briefs"]
    ∧ "https://s.com/research/a.html"
        ∉ mainDiscover discEnv "https://s.com" ["https://s.com/research/briefs"] := by
  exact ⟨by decide, by decide⟩

/-- Claim C8 (amended): the discovery result is the union over seeds of
the candidate anchors plus the seeds themselves (hence a duplicate-free
superset of the seeds), where an anchor is a candidate iff it has a
truthy href whose RAW value — not the resolved absolute URL — or whose
visible text contains a keyword case-insensitively, and whose absolute
URL contains the domain filter. -/
theorem C8_discovery_characterization (env : DiscEnv) (base_url : String)
    (links : List String) (u : String) :
    (u ∈ mainDiscover env base_url links
       ↔ u ∈ links ∨ ∃ url ∈ links, u ∈ discoverPage env base_url url)
    ∧ (∀ (url : String) (anchors : List Anchor), env.pageGet url = Except.ok anchors →
        (u ∈ discoverPage env base_url url
          ↔ ∃ a ∈ anchors, ∃ h : String, a.href = some h ∧ h.isEmpty = false
              ∧ mainHit h a.text = true
              ∧ pyIn base_url (env.urljoin url h) = true
              ∧ u = env.urljoin url h)) := by
  constructor
  · rw [mainDiscover]
    simp only [Finset.mem_union, mem_foldl_union, List.mem_toFinset,
      Finset.not_mem_empty, false_or]
    exact or_comm
  · intro url anchors hpage
    unfold discoverPage
    rw [hpage]
    rw [List.mem_filterMap]
    constructor
    · rintro ⟨a, ha, hg⟩
      rcases hah : a.href with _ | h
      · rw [hah] at hg
        exact absurd hg (by simp)
      · rw [hah] at hg
        dsimp only at hg
        by_cases hne : h.isEmpty
        · rw [if_pos hne] at hg
          exact absurd hg (by simp)
        · rw [if_neg hne] at hg
          by_cases hhit : mainHit h a.text
          · rw [if_pos hhit] at hg
            by_cases hbase : pyIn base_url (env.urljoin url h)
            · rw [if_pos hbase] at hg
              exact ⟨a, ha, h, hah, Bool.eq_false_iff.mpr hne, hhit, hbase,
                (Option.some.inj hg).symm⟩
            · rw [if_neg hbase] at hg
              exact absurd hg (by simp)
          · rw [if_neg hhit] at hg
            exact absurd hg (by simp)
    · rintro ⟨a, ha, h, hah, hne, hhit, hbase, rfl⟩
      refine ⟨a, ha, ?_⟩
      rw [hah]
      simp [hne, hhit, hbase]

/-- Witness for C8 (amended): a seed survives into its own discovery
result. -/
theorem C8_discovery_characterization_witness :
    "https://s.com/research/briefs"
      ∈ mainDiscover discEnv "https://s.com" ["https://s.com/research/briefs"] := by
  have h := (C8_discovery_characterization discEnv "https://s.com"
    ["https://s.com/research/briefs"] "https://s.com/research/briefs").1
  exact h.mpr (Or.inl (by decide))

/-- Claim C9: when the streaming body transfer fails after `k` chunks,
`download_pdf` catches the error and returns none, and the filesystem is
left holding exactly the truncated prefix written so far at the target
path — not the pre-call state, so nothing is rolled back or cleaned up. -/
theorem C9_mid_stream_truncation (denv : DlEnv) (fs : FS) (url dir : String)
    (hs : Headers) (stream : StreamResp) (k : Nat)
    (hhead : denv.headReq url = Except.ok hs)
    (hskip : sizeMatches fs ⟨dir, get_pdf_filename url hs⟩ hs = false)
    (hget : denv.getReq url = Except.ok stream)
    (hfail : stream.failAfter = some k) :
    download_pdf denv fs url dir
      = (none,
         fsWrite fs ⟨dir, get_pdf_filename url hs⟩
           (String.join (stream.chunks.take k))) := by
  simp [download_pdf, hhead, hskip, hget, writtenChunks, hfail]

/-- Witness for C9: a stream of chunks `ab`, `cd` failing after the first
chunk returns none and leaves the truncated file `ab` where no file
existed before the call. -/
theorem C9_mid_stream_truncation_witness :
    (download_pdf midFailDEnv fsEmpty "https://s.com/a.pdf" "pdfs").1 = none
    ∧ fsEmpty ⟨"pdfs", "a.pdf"⟩ = none
    ∧ (download_pdf midFailDEnv fsEmpty "https://s.com/a.pdf" "pdfs").2 ⟨"pdfs", "a.pdf"⟩
        = some "ab" := by
  have h := C9_mid_stream_truncation midFailDEnv fsEmpty "https://s.com/a.pdf" "pdfs"
    ⟨none, some 4⟩ ⟨some 4, ["ab", "cd"], some 1⟩ 1 rfl (by decide) rfl rfl
  rw [h]
  exact ⟨rfl, rfl, by decide⟩

/-- Claim C10: every path returned by `process_article_links` has the
hardcoded parent directory `pdfs`; the article updater writes its
`metadata.json` under `pdfDatabase` and the chat UI loads PDFs from
`pdfDatabase/`, a different directory from `pdfs`. -/
theorem C10_hardcoded_output_dir (renv : ResolveEnv) (denv : DlEnv) (fs : FS)
    (links : List String) (p : PyPath)
    (hp : p ∈ (process_article_links renv denv fs links).1) :
    p.dir = "pdfs"
    ∧ processOutputDir = "pdfs"
    ∧ updaterPdfDir = "pdfDatabase"
    ∧ appPdfDir = "pdfDatabase/"
    ∧ processOutputDir ≠ updaterPdfDir :=
  ⟨process_article_links_dir renv denv fs links p hp, rfl, rfl, rfl, by decide⟩

/-- Witness for C10: a one-link batch that resolves and downloads
successfully produces the path `pdfs/a.pdf`, whose parent is `pdfs`. -/
theorem C10_hardcoded_output_dir_witness :
    (⟨"pdfs", "a.pdf"⟩ : PyPath)
        ∈ (process_article_links okREnv okDEnv fsEmpty ["https://s.com/page"]).1
    ∧ (⟨"pdfs", "a.pdf"⟩ : PyPath).dir = "pdfs" :=
  ⟨by decide,
   (C10_hardcoded_output_dir okREnv okDEnv fsEmpty ["https://s.com/page"] _ (by decide)).1⟩

end ArticlesUpdate
